import Mathlib

/-!
Verification of the connection-pool configuration and protocol of this
repository (a connection pool in the style of sqlx).

The configuration type `PoolOptions` and its fluent setters, together with
the lazy constructors `build` / `build_with` and the eager constructors
`connect` / `connect_with`, are embedded from `src/sqlx/src/pool/options.rs`.
The shared pool internals (`SharedPool`, the waiter list, the maintenance
process) live in modules that are not among the sources; where a claim needs
them, the corresponding definition is modelled from the specification and
says so in its doc comment.

Conventions of the embedding:
* Rust `u32` values that are only stored and compared (never arithmetically
  combined) are embedded as `Nat`.
* `std::time::Duration` is embedded as a nanosecond count.
* Boxed callbacks `Fn(&mut C) -> bool` are embedded as functions `C → Bool`
  (the mutation of the connection is irrelevant to every claim considered).
* The external collaborators (URI parsing, the connector) are oracles passed
  as function arguments, per the spec they are outside the core.
-/

namespace SqlxPool

/-- Embedding of `std::time::Duration` as a count of nanoseconds. -/
structure Duration where
  nanos : Nat
deriving DecidableEq, Repr

/-- Embedding of `Duration::from_secs`. -/
def Duration.from_secs (secs : Nat) : Duration :=
  ⟨secs * 1000000000⟩

/-- Embedding of `PoolOptions<Rt, C>` from `src/sqlx/src/pool/options.rs`.

The Rust struct stores, behind `cfg` features, two pairs of
`after_connect`/`before_acquire` hooks (async and blocking variants); the
claims never distinguish the variants, so one field of each suffices here.
The hook payloads are reduced to `C → Bool` (success / keep signals); no
claim inspects a hook's behaviour, only whether it is configured. -/
structure PoolOptions (C : Type) where
  max_connections : Nat
  connect_timeout : Duration
  min_connections : Nat
  max_lifetime : Option Duration
  idle_timeout : Option Duration
  test_before_acquire : Bool
  after_release : Option (C → Bool)
  after_connect : Option (C → Bool)
  before_acquire : Option (C → Bool)

/-- Embedding of `PoolOptions::new` (options.rs lines 65-83). -/
def PoolOptions.new (C : Type) : PoolOptions C where
  min_connections := 0
  max_connections := 10
  connect_timeout := Duration.from_secs 30
  idle_timeout := some (Duration.from_secs (10 * 60))
  max_lifetime := some (Duration.from_secs (30 * 60))
  test_before_acquire := true
  after_release := none
  after_connect := none
  before_acquire := none

/-- Embedding of `impl Default for PoolOptions` (options.rs lines 55-59):
`default()` simply calls `Self::new()`. -/
def PoolOptions.default (C : Type) : PoolOptions C :=
  PoolOptions.new C

/-- Embedding of the fluent setter `PoolOptions::min_connections`
(options.rs lines 89-92). Named `set_min_connections` because in Lean the
field projection already owns the source name. -/
def PoolOptions.set_min_connections (o : PoolOptions C) (min : Nat) : PoolOptions C :=
  { o with min_connections := min }

/-- Embedding of the fluent setter `PoolOptions::max_connections`
(options.rs lines 95-98). -/
def PoolOptions.set_max_connections (o : PoolOptions C) (max : Nat) : PoolOptions C :=
  { o with max_connections := max }

/-- Embedding of the fluent setter `PoolOptions::connect_timeout`
(options.rs lines 103-106). -/
def PoolOptions.set_connect_timeout (o : PoolOptions C) (timeout : Duration) : PoolOptions C :=
  { o with connect_timeout := timeout }

/-- Embedding of the fluent setter `PoolOptions::max_lifetime`
(options.rs lines 122-125); `impl Into<Option<Duration>>` is embedded as
`Option Duration`. -/
def PoolOptions.set_max_lifetime (o : PoolOptions C) (lifetime : Option Duration) : PoolOptions C :=
  { o with max_lifetime := lifetime }

/-- Embedding of the fluent setter `PoolOptions::idle_timeout`
(options.rs lines 132-135). -/
def PoolOptions.set_idle_timeout (o : PoolOptions C) (timeout : Option Duration) : PoolOptions C :=
  { o with idle_timeout := timeout }

/-- Embedding of the fluent setter `PoolOptions::test_before_acquire`
(options.rs lines 141-144). -/
def PoolOptions.set_test_before_acquire (o : PoolOptions C) (t : Bool) : PoolOptions C :=
  { o with test_before_acquire := t }

/-- Embedding of the fluent setter `PoolOptions::after_release`
(options.rs lines 146-152). -/
def PoolOptions.set_after_release (o : PoolOptions C) (callback : C → Bool) : PoolOptions C :=
  { o with after_release := some callback }

/-- Modelled from the spec: `SharedPool` (module `pool/shared.rs`, not among
the sources). Per the spec it owns the Permit Count, the Idle Store, the
Policy and the connector configuration; for the claims considered the waiter
queue component is modelled separately. `O` is the connector-options type. -/
structure SharedPool (C O : Type) where
  options : PoolOptions C
  connect_options : O
  permits : Nat
  idle : List C

/-- The user-facing pool handle, from `src/sqlx/src/pool.rs` lines 14-16:
a shared reference to the `SharedPool`. -/
structure Pool (C O : Type) where
  shared : SharedPool C O

/-- Modelled from the spec: `SharedPool::new` (`pool/shared.rs` is not among
the sources). The spec lifecycle says the pool is created empty
(Permit Count = 0) and a lazy build establishes no connections; `new` stores
the policy and connector options and nothing else. -/
def SharedPool.new (o : PoolOptions C) (co : O) : SharedPool C O where
  options := o
  connect_options := co
  permits := 0
  idle := []

/-- Embedding of `PoolOptions::build_with` (options.rs lines 184-186):
`Pool { shared: SharedPool::new(self, options).into() }`. Note the Rust
return type is `Pool`, not `Result`: the method is infallible. -/
def PoolOptions.build_with (o : PoolOptions C) (co : O) : Pool C O where
  shared := SharedPool.new o co

/-- Embedding of `PoolOptions::build` (options.rs lines 168-170):
`Ok(self.build_with(uri.parse()?))`. URI parsing belongs to an excluded
collaborator, so it is passed as an oracle `parse`. -/
def PoolOptions.build (o : PoolOptions C) (parse : String → Except E O) (uri : String) :
    Except E (Pool C O) :=
  match parse uri with
  | Except.error e => Except.error e
  | Except.ok co => Except.ok (o.build_with co)

/-- Attempt `n` connection establishments through the connector oracle,
numbering attempts from `k`; the first failure aborts the whole run
(the eager build surfaces the first establishment error). -/
def connectRun (connector : Nat → Except E C) : Nat → Nat → Except E (List C)
  | 0, _ => Except.ok []
  | Nat.succ n, k =>
    match connector k with
    | Except.error e => Except.error e
    | Except.ok c =>
      match connectRun connector n (k + 1) with
      | Except.error e => Except.error e
      | Except.ok cs => Except.ok (c :: cs)

/-- Modelled from the spec: `SharedPool::init_min_connections`
(`pool/shared.rs` is not among the sources). Per the spec and the doc
comment on `connect_with`, it eagerly establishes
`max(min_connections, 1)` connections, failing the whole build if a
connection cannot be established; each established connection takes one
permit and is pushed into the Idle Store. -/
def SharedPool.init_min_connections (s : SharedPool C O) (connector : Nat → Except E C) :
    Except E (SharedPool C O) :=
  match connectRun connector (max s.options.min_connections 1) 0 with
  | Except.error e => Except.error e
  | Except.ok cs => Except.ok { s with permits := cs.length, idle := cs }

/-- Embedding of `PoolOptions::connect_with` (options.rs lines 234-243):
build the shared pool, run `init_min_connections`, return the pool. -/
def PoolOptions.connect_with (o : PoolOptions C) (co : O) (connector : Nat → Except E C) :
    Except E (Pool C O) :=
  match (SharedPool.new o co).init_min_connections connector with
  | Except.error e => Except.error e
  | Except.ok s => Except.ok { shared := s }

/-- Embedding of `PoolOptions::connect` (options.rs lines 222-224):
`self.connect_with(uri.parse()?).await`. -/
def PoolOptions.connect (o : PoolOptions C) (parse : String → Except E O) (uri : String)
    (connector : Nat → Except E C) : Except E (Pool C O) :=
  match parse uri with
  | Except.error e => Except.error e
  | Except.ok co => o.connect_with co connector

/-- Modelled from the spec: the events of the acquire/release protocol of
section 4.1 (`pool/shared.rs` is not among the sources).
`acquireFast` pops an idle connection for a caller; `reserve` optimistically
takes a permit before establishment begins; `establishOk` / `establishFail`
finish an establishment; `releaseIdle` returns a checked-out connection to
the Idle Store; `releaseClose` closes it instead (after-release veto or
shutdown); `evict` is the maintenance process closing an idle connection. -/
inductive PoolEvent where
  | acquireFast
  | reserve
  | establishOk
  | establishFail
  | releaseIdle
  | releaseClose
  | evict
deriving DecidableEq, Repr

/-- Modelled from the spec: the resource accounting of the Shared Pool State
(section 3). `permits` is the stored Permit Count; the other three fields
count the connections in each phase of their life. -/
structure PoolCounts where
  permits : Nat
  idle : Nat
  checkedOut : Nat
  establishing : Nat
deriving DecidableEq, Repr

/-- The pool as created: Permit Count 0, no connections anywhere. -/
def PoolCounts.init : PoolCounts :=
  ⟨0, 0, 0, 0⟩

/-- Modelled from the spec: one protocol step of section 4.1, parametrised by
`maxConn = max_connections`. Guards follow the spec: the fast path needs an
idle connection, `reserve` needs `Permit Count < max_connections` (the sole
admission gate) and increments the count optimistically before establishment,
failure and close paths decrement it.  An event whose guard does not hold
does not occur, so it leaves the state unchanged. -/
def poolStep (maxConn : Nat) (s : PoolCounts) : PoolEvent → PoolCounts
  | PoolEvent.acquireFast =>
    if 0 < s.idle then
      { s with idle := s.idle - 1, checkedOut := s.checkedOut + 1 }
    else s
  | PoolEvent.reserve =>
    if s.permits < maxConn then
      { s with permits := s.permits + 1, establishing := s.establishing + 1 }
    else s
  | PoolEvent.establishOk =>
    if 0 < s.establishing then
      { s with establishing := s.establishing - 1, checkedOut := s.checkedOut + 1 }
    else s
  | PoolEvent.establishFail =>
    if 0 < s.establishing then
      { s with establishing := s.establishing - 1, permits := s.permits - 1 }
    else s
  | PoolEvent.releaseIdle =>
    if 0 < s.checkedOut then
      { s with checkedOut := s.checkedOut - 1, idle := s.idle + 1 }
    else s
  | PoolEvent.releaseClose =>
    if 0 < s.checkedOut then
      { s with checkedOut := s.checkedOut - 1, permits := s.permits - 1 }
    else s
  | PoolEvent.evict =>
    if 0 < s.idle then
      { s with idle := s.idle - 1, permits := s.permits - 1 }
    else s

/-- Run a sequence of protocol events from the empty pool. -/
def poolRun (maxConn : Nat) (evs : List PoolEvent) : PoolCounts :=
  evs.foldl (poolStep maxConn) PoolCounts.init

/-- The pool-state invariant of section 3: the Permit Count equals the number
of live connections (idle + checked-out + establishing) and never exceeds
`max_connections`. -/
def PoolCounts.Inv (maxConn : Nat) (s : PoolCounts) : Prop :=
  s.permits = s.idle + s.checkedOut + s.establishing ∧ s.permits ≤ maxConn

/-- Modelled from the spec: the events acting on the Waiter Queue of
section 4.3 (`pool/wait_list.rs` is not among the sources). Waiter
identities are their enqueue sequence numbers, so "A enqueued before B"
is exactly `A < B`. `wake` is a release waking the longest-waiting waiter;
`cancel i` is waiter `i` abandoning its acquire (timeout/cancellation),
removing itself without waking anyone. -/
inductive WaitEvent where
  | enqueue
  | wake
  | cancel (i : Nat)
deriving DecidableEq, Repr

/-- Modelled from the spec: the Waiter Queue state. `next` is the next
enqueue sequence number, `queue` holds the waiting ids in queue order, and
`woken` records the ids of woken waiters in the order they were woken. -/
structure WaitState where
  next : Nat
  queue : List Nat
  woken : List Nat
deriving DecidableEq, Repr

/-- The empty waiter queue. -/
def WaitState.init : WaitState :=
  ⟨0, [], []⟩

/-- Modelled from the spec: one Waiter Queue step (section 4.3). Enqueue
appends at the tail; a wake removes the head — the waiter that enqueued
first — and never more than one waiter per release; a cancellation removes
the waiter from wherever it stands in the queue without waking anyone. -/
def waitStep (s : WaitState) : WaitEvent → WaitState
  | WaitEvent.enqueue =>
    { s with next := s.next + 1, queue := s.queue ++ [s.next] }
  | WaitEvent.wake =>
    match s.queue with
    | [] => s
    | h :: t => { s with queue := t, woken := s.woken ++ [h] }
  | WaitEvent.cancel i =>
    { s with queue := s.queue.erase i }

/-- Run a sequence of waiter-queue events from the empty queue. -/
def waitRun (evs : List WaitEvent) : WaitState :=
  evs.foldl waitStep WaitState.init

/-- The Waiter Queue invariant: ids in the queue are below `next` and listed
in enqueue order; woken ids are below `next`, recorded in enqueue order, and
every still-queued waiter enqueued after every already-woken one. -/
def WaitState.Inv (s : WaitState) : Prop :=
  (∀ q ∈ s.queue, q < s.next) ∧
    s.queue.Pairwise (· < ·) ∧
    (∀ w ∈ s.woken, w < s.next) ∧
    s.woken.Pairwise (· < ·) ∧
    (∀ w ∈ s.woken, ∀ q ∈ s.queue, w < q)

theorem poolStep_preserves_inv (maxConn : Nat) (s : PoolCounts) (e : PoolEvent)
    (h : s.Inv maxConn) : (poolStep maxConn s e).Inv maxConn := by
  obtain ⟨h1, h2⟩ := h
  cases e <;> simp only [poolStep, PoolCounts.Inv] <;> split <;>
    refine ⟨?_, ?_⟩ <;> simp_all <;> omega

theorem poolRun_inv (maxConn : Nat) (evs : List PoolEvent) :
    (poolRun maxConn evs).Inv maxConn := by
  have key : ∀ s : PoolCounts, s.Inv maxConn →
      (evs.foldl (poolStep maxConn) s).Inv maxConn := by
    induction evs with
    | nil => intro s hs; exact hs
    | cons e t ih =>
      intro s hs
      exact ih _ (poolStep_preserves_inv maxConn s e hs)
  exact key PoolCounts.init ⟨rfl, Nat.zero_le _⟩

theorem waitStep_preserves_inv (s : WaitState) (e : WaitEvent)
    (h : s.Inv) : (waitStep s e).Inv := by
  obtain ⟨hqn, hqp, hwn, hwp, hwq⟩ := h
  cases e with
  | enqueue =>
    simp only [waitStep, WaitState.Inv]
    refine ⟨?_, ?_, ?_, hwp, ?_⟩
    · intro q hq
      rcases List.mem_append.mp hq with hmem | hmem
      · exact Nat.lt_succ_of_lt (hqn q hmem)
      · simp only [List.mem_singleton] at hmem
        omega
    · refine List.pairwise_append.mpr ⟨hqp, List.pairwise_singleton _ _, ?_⟩
      intro a ha b hb
      simp only [List.mem_singleton] at hb
      subst hb
      exact hqn a ha
    · intro w hw
      exact Nat.lt_succ_of_lt (hwn w hw)
    · intro w hw q hq
      rcases List.mem_append.mp hq with hmem | hmem
      · exact hwq w hw q hmem
      · simp only [List.mem_singleton] at hmem
        subst hmem
        exact hwn w hw
  | wake =>
    cases hq : s.queue with
    | nil =>
      simp only [waitStep, hq]
      exact ⟨hqn, hqp, hwn, hwp, hwq⟩
    | cons hd tl =>
      rw [hq] at hqn hqp hwq
      obtain ⟨hhd, htl⟩ := List.pairwise_cons.mp hqp
      simp only [waitStep, hq, WaitState.Inv]
      refine ⟨?_, htl, ?_, ?_, ?_⟩
      · intro q hmem
        exact hqn q (List.mem_cons_of_mem hd hmem)
      · intro w hw
        rcases List.mem_append.mp hw with hmem | hmem
        · exact hwn w hmem
        · simp only [List.mem_singleton] at hmem
          subst hmem
          exact hqn w (List.mem_cons_self w tl)
      · refine List.pairwise_append.mpr ⟨hwp, List.pairwise_singleton _ _, ?_⟩
        intro a ha b hb
        simp only [List.mem_singleton] at hb
        rw [hb]
        exact hwq a ha hd (List.mem_cons_self hd tl)
      · intro w hw q hmem
        rcases List.mem_append.mp hw with hwmem | hwmem
        · exact hwq w hwmem q (List.mem_cons_of_mem hd hmem)
        · simp only [List.mem_singleton] at hwmem
          subst hwmem
          exact hhd q hmem
  | cancel i =>
    have hsub : (s.queue.erase i).Sublist s.queue := List.erase_sublist i s.queue
    refine ⟨?_, ?_, hwn, hwp, ?_⟩
    · intro q hmem
      exact hqn q (hsub.subset hmem)
    · exact List.Pairwise.sublist hsub hqp
    · intro w hw q hmem
      exact hwq w hw q (hsub.subset hmem)

theorem waitRun_inv (evs : List WaitEvent) : (waitRun evs).Inv := by
  have key : ∀ s : WaitState, s.Inv → (evs.foldl waitStep s).Inv := by
    induction evs with
    | nil => intro s hs; exact hs
    | cons e t ih =>
      intro s hs
      exact ih _ (waitStep_preserves_inv s e hs)
  refine key WaitState.init ⟨?_, ?_, ?_, ?_, ?_⟩ <;> simp [WaitState.init]

theorem connectRun_ok_length (connector : Nat → Except E C) :
    ∀ (n k : Nat) (cs : List C), connectRun connector n k = Except.ok cs →
      cs.length = n := by
  intro n
  induction n with
  | zero =>
    intro k cs h
    simp only [connectRun, Except.ok.injEq] at h
    rw [← h]
    rfl
  | succ m ih =>
    intro k cs h
    rw [connectRun] at h
    cases hc : connector k with
    | error e =>
      simp only [hc] at h
      exact absurd h (by simp)
    | ok c =>
      simp only [hc] at h
      cases hr : connectRun connector m (k + 1) with
      | error e =>
        simp only [hr] at h
        exact absurd h (by simp)
      | ok cs2 =>
        simp only [hr, Except.ok.injEq] at h
        rw [← h]
        simp only [List.length_cons, ih (k + 1) cs2 hr]

theorem connectRun_first_fail (connector : Nat → Except E C) (m : Nat) (e : E)
    (h0 : connector 0 = Except.error e) :
    connectRun connector (m + 1) 0 = Except.error e := by
  rw [connectRun, h0]

/-- C1: for every sequence of acquire/release/establishment/maintenance
events on a pool with capacity `maxConn`, the number of live connections
(idle + checked-out + establishing) never exceeds `maxConn`; the Permit
Count equals that number (hence is a non-negative integer, being a `Nat`)
and never exceeds `maxConn` in any reachable pool state. -/
theorem permit_count_never_exceeds_max (maxConn : Nat) (evs : List PoolEvent) :
    (poolRun maxConn evs).idle + (poolRun maxConn evs).checkedOut
        + (poolRun maxConn evs).establishing ≤ maxConn ∧
      (poolRun maxConn evs).permits = (poolRun maxConn evs).idle
        + (poolRun maxConn evs).checkedOut + (poolRun maxConn evs).establishing ∧
      (poolRun maxConn evs).permits ≤ maxConn := by
  obtain ⟨h1, h2⟩ := poolRun_inv maxConn evs
  exact ⟨h1 ▸ h2, h1, h2⟩

/-- C2: waiters are woken in strict FIFO order. Waiter ids are assigned in
enqueue order, so waiter A enqueued before waiter B exactly when `A < B`;
the theorem says that for every event interleaving, whenever position `i`
of the wake record precedes position `j`, the waiter woken at `i` enqueued
before the waiter woken at `j` — so a waiter that enqueued first is never
woken after a later waiter. -/
theorem waiters_woken_in_fifo_order (evs : List WaitEvent) (i j A B : Nat)
    (hij : i < j) (hA : (waitRun evs).woken.get? i = some A)
    (hB : (waitRun evs).woken.get? j = some B) : A < B := by
  have hp : (waitRun evs).woken.Pairwise (· < ·) := (waitRun_inv evs).2.2.2.1
  obtain ⟨hi, hAi⟩ := List.get?_eq_some.mp hA
  obtain ⟨hj, hBj⟩ := List.get?_eq_some.mp hB
  have key := List.pairwise_iff_get.mp hp ⟨i, hi⟩ ⟨j, hj⟩ hij
  rw [hAi, hBj] at key
  exact key

/-- Witness for C2: two enqueues followed by two wakes wake waiter 0 at
position 0 and waiter 1 at position 1, and the theorem applied there gives
`0 < 1`. -/
theorem waiters_woken_in_fifo_order_witness :
    (waitRun [WaitEvent.enqueue, WaitEvent.enqueue, WaitEvent.wake,
        WaitEvent.wake]).woken.get? 0 = some 0 ∧
      (waitRun [WaitEvent.enqueue, WaitEvent.enqueue, WaitEvent.wake,
          WaitEvent.wake]).woken.get? 1 = some 1 ∧
      (0 : Nat) < 1 :=
  ⟨rfl, rfl,
    waiters_woken_in_fifo_order
      [WaitEvent.enqueue, WaitEvent.enqueue, WaitEvent.wake, WaitEvent.wake]
      0 1 0 1 (by decide) rfl rfl⟩

/-- C3 counterexample: with `max_connections` set to 0 the setter stores 0
without error, and `build` nevertheless succeeds (assuming the URI parses):
pool-build does not reject a zero `max_connections` with an error, contrary
to the claim. -/
theorem build_accepts_zero_max_connections :
    ((PoolOptions.new Unit).set_max_connections 0).max_connections = 0 ∧
      (((PoolOptions.new Unit).set_max_connections 0).build
          (fun _ => (Except.ok () : Except Unit Unit)) "postgres://db").isOk = true :=
  ⟨rfl, rfl⟩

/-- C3 (amended): the zero value is accepted by the `max_connections` setter
without error, and pool-build performs no validation of it either:
`build_with` is infallible and returns a pool whose stored policy still has
`max_connections = 0`, and `build` succeeds exactly when the URI parses —
a zero `max_connections` is never rejected. -/
theorem zero_max_connections_never_rejected (C E O : Type) (o : PoolOptions C)
    (co : O) (parse : String → Except E O) (uri : String) :
    ((o.set_max_connections 0).max_connections = 0) ∧
      ((o.set_max_connections 0).build_with co).shared.options.max_connections = 0 ∧
      ((o.set_max_connections 0).build parse uri).isOk = (parse uri).isOk := by
  refine ⟨rfl, rfl, ?_⟩
  unfold PoolOptions.build
  cases parse uri <;> rfl

/-- C4: `PoolOptions::new()` returns exactly the documented defaults:
`min_connections = 0`, `max_connections = 10`, `connect_timeout = 30` s,
`idle_timeout = some 600` s, `max_lifetime = some 1800` s,
`test_before_acquire = true`, and no hooks configured. -/
theorem pool_options_new_defaults (C : Type) :
    (PoolOptions.new C).min_connections = 0 ∧
      (PoolOptions.new C).max_connections = 10 ∧
      (PoolOptions.new C).connect_timeout = Duration.from_secs 30 ∧
      (PoolOptions.new C).idle_timeout = some (Duration.from_secs 600) ∧
      (PoolOptions.new C).max_lifetime = some (Duration.from_secs 1800) ∧
      (PoolOptions.new C).test_before_acquire = true ∧
      (PoolOptions.new C).after_release = none ∧
      (PoolOptions.new C).after_connect = none ∧
      (PoolOptions.new C).before_acquire = none :=
  ⟨rfl, rfl, rfl, rfl, rfl, rfl, rfl, rfl, rfl⟩

/-- C5: the eager constructor `connect_with` establishes exactly
`max(min_connections, 1)` connections before returning the pool — whenever
it returns a pool, that pool holds `max(min_connections, 1)` permits and as
many idle connections — and if the first connection cannot be established,
it returns that error and no pool. -/
theorem connect_with_establishes_min_connections (C E O : Type)
    (o : PoolOptions C) (co : O) (connector : Nat → Except E C) :
    (∀ p : Pool C O, o.connect_with co connector = Except.ok p →
        p.shared.permits = max o.min_connections 1 ∧
          p.shared.idle.length = max o.min_connections 1) ∧
      (∀ e : E, connector 0 = Except.error e →
        o.connect_with co connector = Except.error e) := by
  constructor
  · intro p hp
    unfold PoolOptions.connect_with SharedPool.init_min_connections at hp
    cases hr : connectRun connector
        (max (SharedPool.new o co).options.min_connections 1) 0 with
    | error e =>
      simp only [hr] at hp
      exact absurd hp (by simp)
    | ok cs =>
      simp only [hr, Except.ok.injEq] at hp
      have hl : cs.length = max o.min_connections 1 :=
        connectRun_ok_length connector _ 0 cs hr
      rw [← hp]
      exact ⟨hl, hl⟩
  · intro e he
    obtain ⟨m, hm⟩ : ∃ m, max o.min_connections 1 = m + 1 :=
      ⟨max o.min_connections 1 - 1, by omega⟩
    unfold PoolOptions.connect_with SharedPool.init_min_connections
    have hfail := connectRun_first_fail connector m e he
    simp only [SharedPool.new, hm, hfail]

/-- The pool that `connect_with` on the default options with an
always-succeeding connector returns: one permit, one idle connection. -/
def eagerDefaultPool : Pool Unit Unit where
  shared :=
    { options := PoolOptions.new Unit
      connect_options := ()
      permits := 1
      idle := [()] }

/-- Witness for C5: with an always-succeeding connector on the default
options (`min_connections = 0`), the returned pool holds
`max(0, 1) = 1` permit and one idle connection; with a connector whose
first attempt fails, `connect_with` returns that error. -/
theorem connect_with_establishes_min_connections_witness :
    (eagerDefaultPool.shared.permits
        = max (PoolOptions.new Unit).min_connections 1 ∧
      eagerDefaultPool.shared.idle.length
        = max (PoolOptions.new Unit).min_connections 1) ∧
      (PoolOptions.new Unit).connect_with ()
          (fun _ => (Except.error () : Except Unit Unit)) = Except.error () :=
  ⟨(connect_with_establishes_min_connections Unit Unit Unit (PoolOptions.new Unit) ()
      (fun _ => Except.ok ())).1 eagerDefaultPool rfl,
    (connect_with_establishes_min_connections Unit Unit Unit (PoolOptions.new Unit) ()
      (fun _ => Except.error ())).2 () rfl⟩

/-- C6: `build` is `parse` followed by the infallible `build_with` — it
returns an error exactly when the URI fails to parse — and `build_with`
performs no connection establishment: it is a total function into `Pool`
(no error path in its type) and the returned pool has Permit Count 0 and an
empty Idle Store, for every options value. -/
theorem build_lazy_and_infallible (C E O : Type) (o : PoolOptions C)
    (parse : String → Except E O) (uri : String) (co : O) :
    (o.build parse uri = (parse uri).map (fun x => o.build_with x)) ∧
      (o.build_with co).shared.permits = 0 ∧
      (o.build_with co).shared.idle = ([] : List C) := by
  refine ⟨?_, rfl, rfl⟩
  unfold PoolOptions.build
  cases parse uri <;> rfl

/-- C7 counterexample: starting from the defaults (`max_connections = 10`)
and setting `min_connections := 11`, `build_with` yields a pool whose stored
policy has `min_connections = 11 > 10 = max_connections`, violating the
claimed invariant. -/
theorem built_pool_can_violate_min_le_max :
    (((PoolOptions.new Unit).set_min_connections 11).build_with
        ()).shared.options.min_connections = 11 ∧
      (((PoolOptions.new Unit).set_min_connections 11).build_with
          ()).shared.options.max_connections = 10 ∧
      ¬((((PoolOptions.new Unit).set_min_connections 11).build_with
            ()).shared.options.min_connections ≤
          (((PoolOptions.new Unit).set_min_connections 11).build_with
            ()).shared.options.max_connections) :=
  ⟨rfl, rfl, by decide⟩

/-- C7 (amended): neither the setters nor the build enforce
`min_connections ≤ max_connections`: `build_with` stores the supplied
options unchanged, so the built pool's policy satisfies the invariant
exactly when the supplied configuration already does; a configuration with
`min_connections > max_connections` builds a pool violating it. -/
theorem build_with_preserves_options (C O : Type) (o : PoolOptions C) (co : O) :
    (o.build_with co).shared.options = o ∧
      ((o.build_with co).shared.options.min_connections ≤
          (o.build_with co).shared.options.max_connections ↔
        o.min_connections ≤ o.max_connections) :=
  ⟨rfl, Iff.rfl⟩

/-- C8: each fluent setter updates only its own named field and leaves every
other configuration field unchanged, for every starting options value and
every argument (frame property over all nine configuration fields, for the
seven setters `min_connections`, `max_connections`, `connect_timeout`,
`max_lifetime`, `idle_timeout`, `test_before_acquire`, `after_release`). -/
theorem setters_update_only_their_field (C : Type) (o : PoolOptions C)
    (m x : Nat) (d : Duration) (lt it : Option Duration) (b : Bool)
    (f : C → Bool) :
    ((o.set_min_connections m).min_connections = m ∧
      (o.set_min_connections m).max_connections = o.max_connections ∧
      (o.set_min_connections m).connect_timeout = o.connect_timeout ∧
      (o.set_min_connections m).max_lifetime = o.max_lifetime ∧
      (o.set_min_connections m).idle_timeout = o.idle_timeout ∧
      (o.set_min_connections m).test_before_acquire = o.test_before_acquire ∧
      (o.set_min_connections m).after_release = o.after_release ∧
      (o.set_min_connections m).after_connect = o.after_connect ∧
      (o.set_min_connections m).before_acquire = o.before_acquire) ∧
    ((o.set_max_connections x).max_connections = x ∧
      (o.set_max_connections x).min_connections = o.min_connections ∧
      (o.set_max_connections x).connect_timeout = o.connect_timeout ∧
      (o.set_max_connections x).max_lifetime = o.max_lifetime ∧
      (o.set_max_connections x).idle_timeout = o.idle_timeout ∧
      (o.set_max_connections x).test_before_acquire = o.test_before_acquire ∧
      (o.set_max_connections x).after_release = o.after_release ∧
      (o.set_max_connections x).after_connect = o.after_connect ∧
      (o.set_max_connections x).before_acquire = o.before_acquire) ∧
    ((o.set_connect_timeout d).connect_timeout = d ∧
      (o.set_connect_timeout d).min_connections = o.min_connections ∧
      (o.set_connect_timeout d).max_connections = o.max_connections ∧
      (o.set_connect_timeout d).max_lifetime = o.max_lifetime ∧
      (o.set_connect_timeout d).idle_timeout = o.idle_timeout ∧
      (o.set_connect_timeout d).test_before_acquire = o.test_before_acquire ∧
      (o.set_connect_timeout d).after_release = o.after_release ∧
      (o.set_connect_timeout d).after_connect = o.after_connect ∧
      (o.set_connect_timeout d).before_acquire = o.before_acquire) ∧
    ((o.set_max_lifetime lt).max_lifetime = lt ∧
      (o.set_max_lifetime lt).min_connections = o.min_connections ∧
      (o.set_max_lifetime lt).max_connections = o.max_connections ∧
      (o.set_max_lifetime lt).connect_timeout = o.connect_timeout ∧
      (o.set_max_lifetime lt).idle_timeout = o.idle_timeout ∧
      (o.set_max_lifetime lt).test_before_acquire = o.test_before_acquire ∧
      (o.set_max_lifetime lt).after_release = o.after_release ∧
      (o.set_max_lifetime lt).after_connect = o.after_connect ∧
      (o.set_max_lifetime lt).before_acquire = o.before_acquire) ∧
    ((o.set_idle_timeout it).idle_timeout = it ∧
      (o.set_idle_timeout it).min_connections = o.min_connections ∧
      (o.set_idle_timeout it).max_connections = o.max_connections ∧
      (o.set_idle_timeout it).connect_timeout = o.connect_timeout ∧
      (o.set_idle_timeout it).max_lifetime = o.max_lifetime ∧
      (o.set_idle_timeout it).test_before_acquire = o.test_before_acquire ∧
      (o.set_idle_timeout it).after_release = o.after_release ∧
      (o.set_idle_timeout it).after_connect = o.after_connect ∧
      (o.set_idle_timeout it).before_acquire = o.before_acquire) ∧
    ((o.set_test_before_acquire b).test_before_acquire = b ∧
      (o.set_test_before_acquire b).min_connections = o.min_connections ∧
      (o.set_test_before_acquire b).max_connections = o.max_connections ∧
      (o.set_test_before_acquire b).connect_timeout = o.connect_timeout ∧
      (o.set_test_before_acquire b).max_lifetime = o.max_lifetime ∧
      (o.set_test_before_acquire b).idle_timeout = o.idle_timeout ∧
      (o.set_test_before_acquire b).after_release = o.after_release ∧
      (o.set_test_before_acquire b).after_connect = o.after_connect ∧
      (o.set_test_before_acquire b).before_acquire = o.before_acquire) ∧
    ((o.set_after_release f).after_release = some f ∧
      (o.set_after_release f).min_connections = o.min_connections ∧
      (o.set_after_release f).max_connections = o.max_connections ∧
      (o.set_after_release f).connect_timeout = o.connect_timeout ∧
      (o.set_after_release f).max_lifetime = o.max_lifetime ∧
      (o.set_after_release f).idle_timeout = o.idle_timeout ∧
      (o.set_after_release f).test_before_acquire = o.test_before_acquire ∧
      (o.set_after_release f).after_connect = o.after_connect ∧
      (o.set_after_release f).before_acquire = o.before_acquire) :=
  ⟨⟨rfl, rfl, rfl, rfl, rfl, rfl, rfl, rfl, rfl⟩,
    ⟨rfl, rfl, rfl, rfl, rfl, rfl, rfl, rfl, rfl⟩,
    ⟨rfl, rfl, rfl, rfl, rfl, rfl, rfl, rfl, rfl⟩,
    ⟨rfl, rfl, rfl, rfl, rfl, rfl, rfl, rfl, rfl⟩,
    ⟨rfl, rfl, rfl, rfl, rfl, rfl, rfl, rfl, rfl⟩,
    ⟨rfl, rfl, rfl, rfl, rfl, rfl, rfl, rfl, rfl⟩,
    ⟨rfl, rfl, rfl, rfl, rfl, rfl, rfl, rfl, rfl⟩⟩

/-- C9: `PoolOptions::default()` equals `PoolOptions::new()`: the records
coincide, hence so does every configuration field. -/
theorem default_equals_new (C : Type) :
    PoolOptions.default C = PoolOptions.new C ∧
      (PoolOptions.default C).min_connections = (PoolOptions.new C).min_connections ∧
      (PoolOptions.default C).max_connections = (PoolOptions.new C).max_connections ∧
      (PoolOptions.default C).connect_timeout = (PoolOptions.new C).connect_timeout ∧
      (PoolOptions.default C).max_lifetime = (PoolOptions.new C).max_lifetime ∧
      (PoolOptions.default C).idle_timeout = (PoolOptions.new C).idle_timeout ∧
      (PoolOptions.default C).test_before_acquire = (PoolOptions.new C).test_before_acquire ∧
      (PoolOptions.default C).after_release = (PoolOptions.new C).after_release ∧
      (PoolOptions.default C).after_connect = (PoolOptions.new C).after_connect ∧
      (PoolOptions.default C).before_acquire = (PoolOptions.new C).before_acquire :=
  ⟨rfl, rfl, rfl, rfl, rfl, rfl, rfl, rfl, rfl, rfl⟩

/-- C10: every scalar fluent setter is last-write-wins: applying the same
setter twice with values `a` then `b` equals applying it once with `b`, for
`min_connections`, `max_connections`, `connect_timeout`, `max_lifetime`,
`idle_timeout` and `test_before_acquire`. -/
theorem setters_last_write_wins (C : Type) (o : PoolOptions C) (a b : Nat)
    (d1 d2 : Duration) (l1 l2 : Option Duration) (t1 t2 : Bool) :
    (o.set_min_connections a).set_min_connections b = o.set_min_connections b ∧
      (o.set_max_connections a).set_max_connections b = o.set_max_connections b ∧
      (o.set_connect_timeout d1).set_connect_timeout d2 = o.set_connect_timeout d2 ∧
      (o.set_max_lifetime l1).set_max_lifetime l2 = o.set_max_lifetime l2 ∧
      (o.set_idle_timeout l1).set_idle_timeout l2 = o.set_idle_timeout l2 ∧
      (o.set_test_before_acquire t1).set_test_before_acquire t2
        = o.set_test_before_acquire t2 :=
  ⟨rfl, rfl, rfl, rfl, rfl, rfl⟩

end SqlxPool
